import Mathlib

/-!
DE1-SoC drivers: seven-segment displays and LT24 LCD

A shallow embedding of `Drivers/DE1SoC_SevenSeg/DE1SoC_SevenSeg.c` and of the
interface declared in `Drivers/DE1SoC_LT24/DE1SoC_LT24.h`.

The seven-segment peripheral is memory mapped: the state of the embedding is the
byte-addressed memory, a map from addresses to byte values.  `unsigned int` values
are natural numbers, reduced modulo `2 ^ 32` where the C arithmetic can wrap, and
a value passed as `unsigned char` is reduced modulo `2 ^ 8`.
-/

namespace DE1SoC

/-! ## Seven-segment driver (`DE1SoC_SevenSeg.c`) -/

/-- Byte-addressed memory: the value held at every address. -/
abbrev Memory := Nat → Nat

/-- Base address of the low bank, `sevenseg_base_lo_ptr` (hexes 0 to 3). -/
def sevenseg_base_lo_ptr : Nat := 0xFF200020

/-- Base address of the high bank, `sevenseg_base_hi_ptr` (hexes 4 to 5). -/
def sevenseg_base_hi_ptr : Nat := 0xFF200030

/-- Number of displays attached to the low address. -/
def SEVENSEG_N_DISPLAYS_LO : Nat := 4

/-- Number of displays attached to the high address. -/
def SEVENSEG_N_DISPLAYS_HI : Nat := 2

/-- The store `p[i] = value` through a byte pointer `p`: one byte of memory changes. -/
def storeByte (m : Memory) (p i value : Nat) : Memory :=
  fun a => if a = p + i then value else m a

/-- `DE1SoC_SevenSeg_Write(display, value)`; `value` is an `unsigned char`. -/
def DE1SoC_SevenSeg_Write (m : Memory) (display value : Nat) : Memory :=
  if display < SEVENSEG_N_DISPLAYS_LO then
    storeByte m sevenseg_base_lo_ptr display (value % 2 ^ 8)
  else
    storeByte m sevenseg_base_hi_ptr (display - SEVENSEG_N_DISPLAYS_LO) (value % 2 ^ 8)

/-- The table `look_up[16]` of `DE1SoC_SevenSeg_SetSingle`. -/
def look_up : List Nat :=
  [0x3F, 0x06, 0x5B, 0x4F, 0x66, 0x6D, 0x7D, 0x07,
   0x7F, 0x67, 0x77, 0x7C, 0x39, 0x5E, 0x79, 0x71]

/-- `DE1SoC_SevenSeg_SetSingle(display, value)`. -/
def DE1SoC_SevenSeg_SetSingle (m : Memory) (display value : Nat) : Memory :=
  if value < 0x10 then
    DE1SoC_SevenSeg_Write m display (look_up.getD value 0)
  else
    DE1SoC_SevenSeg_Write m display 0x40

/-- `DE1SoC_SevenSeg_SetDoubleHex(display, value)`. -/
def DE1SoC_SevenSeg_SetDoubleHex (m : Memory) (display value : Nat) : Memory :=
  if value < 0x100 then
    let least_significant_digit := value &&& 0x0F
    let most_significant_digit := (value &&& 0xF0) >>> 4
    let m1 := DE1SoC_SevenSeg_SetSingle m display least_significant_digit
    DE1SoC_SevenSeg_SetSingle m1 ((display + 1) % 2 ^ 32) most_significant_digit
  else
    let m1 := DE1SoC_SevenSeg_SetSingle m display 0x10
    DE1SoC_SevenSeg_SetSingle m1 ((display + 1) % 2 ^ 32) 0x10

/-- `DE1SoC_SevenSeg_SetDoubleDec(display, value)`. -/
def DE1SoC_SevenSeg_SetDoubleDec (m : Memory) (display value : Nat) : Memory :=
  if value < 100 then
    let least_significant_digit := value % 10
    let most_significant_digit := ((value - least_significant_digit) / 10) % 10
    let m1 := DE1SoC_SevenSeg_SetSingle m display least_significant_digit
    DE1SoC_SevenSeg_SetSingle m1 ((display + 1) % 2 ^ 32) most_significant_digit
  else
    let m1 := DE1SoC_SevenSeg_SetSingle m display 0x10
    DE1SoC_SevenSeg_SetSingle m1 ((display + 1) % 2 ^ 32) 0x10

/-- Address of the register of display `d`: displays 0 to 3 are the bytes of the low
bank and displays 4 and 5 the bytes of the high bank. -/
def displayRegister (d : Nat) : Nat :=
  match d with
  | 0 => 0xFF200020
  | 1 => 0xFF200021
  | 2 => 0xFF200022
  | 3 => 0xFF200023
  | 4 => 0xFF200030
  | _ => 0xFF200031

/-- A memory in which every byte is zero, for evaluating the driver on concrete inputs. -/
def zeroMemory : Memory := fun _ => 0

/-! ## LT24 display driver (`DE1SoC_LT24.h`)

The header declares the driver interface and defines its constants.  The function
bodies are not part of the sources at hand; the functions used below are modelled
from the specification of the driver, as their doc comments say. -/

/-- Error code `LT24_SUCCESS`. -/
def LT24_SUCCESS : Int := 0

/-- Error code `LT24_ERRORNOINIT`. -/
def LT24_ERRORNOINIT : Int := -1

/-- Error code `LT24_INVALIDSIZE`. -/
def LT24_INVALIDSIZE : Int := -4

/-- Error code `LT24_INVALIDSHAPE`. -/
def LT24_INVALIDSHAPE : Int := -6

/-- Width of the LCD in pixels. -/
def LT24_WIDTH : Nat := 240

/-- Height of the LCD in pixels. -/
def LT24_HEIGHT : Nat := 320

/-- Basic colour `LT24_BLACK`. -/
def LT24_BLACK : Nat := 0x0000

/-- Basic colour `LT24_WHITE`. -/
def LT24_WHITE : Nat := 0xFFFF

/-- Basic colour `LT24_RED`, `(0x1F << 11)`. -/
def LT24_RED : Nat := 0x1F <<< 11

/-- Basic colour `LT24_GREEN`, `(0x1F << 6)`. -/
def LT24_GREEN : Nat := 0x1F <<< 6

/-- Basic colour `LT24_BLUE`, `(0x1F << 0)`. -/
def LT24_BLUE : Nat := 0x1F <<< 0

/-- Basic colour `LT24_YELLOW`. -/
def LT24_YELLOW : Nat := LT24_RED ||| LT24_GREEN

/-- Basic colour `LT24_CYAN`. -/
def LT24_CYAN : Nat := LT24_GREEN ||| LT24_BLUE

/-- Basic colour `LT24_MAGENTA`. -/
def LT24_MAGENTA : Nat := LT24_BLUE ||| LT24_RED

/-- Modelled from the spec: the body of `LT24_makeColour` (only its declaration is in
the header).  Of each channel only the low 5 (red, blue) or 6 (green) bits are kept, with
no saturation; red is placed at bit 11, green at bit 5 and blue at bit 0, and the result
is returned as an `unsigned short`. -/
def LT24_makeColour (R G B : Nat) : Nat :=
  (((R &&& 0x1F) <<< 11) ||| ((G &&& 0x3F) <<< 5) ||| (B &&& 0x1F)) % 2 ^ 16

/-- Driver and device state: the initialisation flag of the driver and the calls of the
device interface `LT24_write` made so far, oldest first, each with its `isData` flag and
its 16-bit value.  What the device holds (its addressing state included) is determined by
the writes it has received. -/
structure LT24 where
  /-- Whether bring-up has completed. -/
  initialised : Bool
  /-- The calls of `LT24_write` so far. -/
  writes : List (Bool × Nat)
deriving DecidableEq, Repr

/-- The command codes of the display controller, which neither the header nor the
specification fixes: set the column address range, set the row address range, begin the
pixel write. -/
structure LT24Commands where
  /-- Command that sets the start and end column. -/
  columnAddress : Nat
  /-- Command that sets the start and end row. -/
  rowAddress : Nat
  /-- Command that begins the pixel write. -/
  memoryWrite : Nat
deriving DecidableEq, Repr

/-- `LT24_isInitialised()`. -/
def LT24_isInitialised (s : LT24) : Bool := s.initialised

/-- Modelled from the spec: the device interface `LT24_write(isData, value)` (declared in
the header, body missing), a synchronous write of one `unsigned short` to the command or
the data register; the embedding records the call. -/
def LT24_write (s : LT24) (isData : Bool) (value : Nat) : LT24 :=
  { s with writes := s.writes ++ [(isData, value % 2 ^ 16)] }

/-- Modelled from the spec: the body of `LT24_setWindow` (only its declaration is in the
header).  It fails with `LT24_ERRORNOINIT` before bring-up; it validates `width ≥ 1` and
`height ≥ 1`, else `LT24_INVALIDSIZE`; it validates that the rectangle fits the panel
(`xleft + width ≤ LT24_WIDTH`, `ytop + height ≤ LT24_HEIGHT`), else `LT24_INVALIDSIZE`;
on success it issues the column range command with start and end column, the row range
command with start and end row, then the begin-pixel-write command. -/
def LT24_setWindow (cmd : LT24Commands) (s : LT24) (xleft ytop width height : Nat) :
    Int × LT24 :=
  if LT24_isInitialised s = false then (LT24_ERRORNOINIT, s)
  else if width < 1 ∨ height < 1 then (LT24_INVALIDSIZE, s)
  else if LT24_WIDTH < xleft + width ∨ LT24_HEIGHT < ytop + height then (LT24_INVALIDSIZE, s)
  else
    let s1 := LT24_write s false cmd.columnAddress
    let s2 := LT24_write s1 true xleft
    let s3 := LT24_write s2 true (xleft + width - 1)
    let s4 := LT24_write s3 false cmd.rowAddress
    let s5 := LT24_write s4 true ytop
    let s6 := LT24_write s5 true (ytop + height - 1)
    let s7 := LT24_write s6 false cmd.memoryWrite
    (LT24_SUCCESS, s7)

/-- Modelled from the spec: the body of `LT24_drawPixel` (only its declaration is in the
header).  Like every drawing operation it returns `LT24_ERRORNOINIT` before bring-up,
without touching the device; it validates `x < LT24_WIDTH` and `y < LT24_HEIGHT`, else
`LT24_INVALIDSIZE`; it addresses the 1x1 window at `(x, y)` with `LT24_setWindow` and then
streams one colour word. -/
def LT24_drawPixel (cmd : LT24Commands) (s : LT24) (colour x y : Nat) : Int × LT24 :=
  if LT24_isInitialised s = false then (LT24_ERRORNOINIT, s)
  else if ¬ (x < LT24_WIDTH ∧ y < LT24_HEIGHT) then (LT24_INVALIDSIZE, s)
  else
    match LT24_setWindow cmd s x y 1 1 with
    | (status, s1) =>
      if status ≠ LT24_SUCCESS then (status, s1)
      else (LT24_SUCCESS, LT24_write s1 true colour)

/-- Command codes used to evaluate the driver on concrete inputs. -/
def sampleCommands : LT24Commands := ⟨0x2A, 0x2B, 0x2C⟩

/-- A driver on which bring-up has not run. -/
def uninitialisedLT24 : LT24 := ⟨false, []⟩

/-- A driver right after bring-up, before any drawing. -/
def initialisedLT24 : LT24 := ⟨true, []⟩

/-! ## LT24 display driver: pixel and frame transfer, graph geometry, colour gradient -/

/-- Streaming of colour words into the addressed window: one data write per word, in
order. -/
def LT24_stream (s : LT24) (words : List Nat) : LT24 :=
  words.foldl (fun t w => LT24_write t true w) s

/-- Modelled from the spec: the body of `LT24_clearDisplay` (only its declaration is in the
header).  It sets the window to the full panel and then streams
`LT24_WIDTH * LT24_HEIGHT` repetitions of the colour word; a failure of the window
addressing is returned as it is. -/
def LT24_clearDisplay (cmd : LT24Commands) (s : LT24) (colour : Nat) : Int × LT24 :=
  match LT24_setWindow cmd s 0 0 LT24_WIDTH LT24_HEIGHT with
  | (status, s1) =>
    if status ≠ LT24_SUCCESS then (status, s1)
    else (LT24_SUCCESS, LT24_stream s1 (List.replicate (LT24_WIDTH * LT24_HEIGHT) colour))

/-- Modelled from the spec: the body of `LT24_testPattern` (only its declaration is in the
header).  A fixed diagnostic image is written with the same windowed streaming; the
specification does not fix the image, so its colour words are the parameter `image`. -/
def LT24_testPattern (cmd : LT24Commands) (image : List Nat) (s : LT24) : Int × LT24 :=
  match LT24_setWindow cmd s 0 0 LT24_WIDTH LT24_HEIGHT with
  | (status, s1) =>
    if status ≠ LT24_SUCCESS then (status, s1)
    else (LT24_SUCCESS, LT24_stream s1 image)

/-- Modelled from the spec: the body of `LT24_copyFrameBuffer` (only its declaration is in
the header).  The rectangle is validated as in `LT24_setWindow`; the buffer is read as
`height` rows of `width` colour words, row-major, and all `width * height` words are
streamed in one windowed sequence.  The caller supplies at least that many words. -/
def LT24_copyFrameBuffer (cmd : LT24Commands) (s : LT24) (framebuffer : List Nat)
    (xleft ytop width height : Nat) : Int × LT24 :=
  match LT24_setWindow cmd s xleft ytop width height with
  | (status, s1) =>
    if status ≠ LT24_SUCCESS then (status, s1)
    else
      (LT24_SUCCESS,
        LT24_stream s1 ((List.range (width * height)).map (fun i => framebuffer.getD i 0)))

/-- The graph geometry configuration held by the driver between calls. -/
structure LT24Geometry where
  /-- Width of the graph. -/
  graphWidth : Nat
  /-- Height of the graph. -/
  graphHeight : Nat
  /-- Number of columns of the graph. -/
  columns : Nat
  /-- Height of the windows (rows) of the graph. -/
  windowHeight : Nat
deriving DecidableEq, Repr

/-- Modelled from the spec: the body of `LT24_initGeometries` (only its declaration is in
the header).  It stores the configuration and does no device write. -/
def LT24_initGeometries (graphWidth graphHeight columns windowHeight : Nat) : LT24Geometry :=
  ⟨graphWidth, graphHeight, columns, windowHeight⟩

/-- Pixel width of one column, `graphWidth / columnCount` in integer division. -/
def columnPixelWidth (g : LT24Geometry) : Nat := g.graphWidth / g.columns

/-- Number of bands of one column, `graphHeight / windowHeight` in integer division. -/
def bandsPerColumn (g : LT24Geometry) : Nat := g.graphHeight / g.windowHeight

/-- The rectangle `(left, top, width, height)` that `LT24_drawWindow(colour, x, y)`
computes from the stored configuration. -/
def windowRectangle (g : LT24Geometry) (x y : Nat) : Nat × Nat × Nat × Nat :=
  (x, y, columnPixelWidth g, g.windowHeight)

/-- Modelled from the spec: the body of `LT24_drawWindow` (only its declaration is in the
header).  It computes the rectangle of size `(columnPixelWidth, windowHeight)` at `(x, y)`
and delegates to the window addressing and a single-colour fill of that rectangle; a
failure of the window addressing is returned as it is. -/
def LT24_drawWindow (cmd : LT24Commands) (g : LT24Geometry) (s : LT24) (colour x y : Nat) :
    Int × LT24 :=
  match windowRectangle g x y with
  | (left, top, width, height) =>
    match LT24_setWindow cmd s left top width height with
    | (status, s1) =>
      if status ≠ LT24_SUCCESS then (status, s1)
      else (LT24_SUCCESS, LT24_stream s1 (List.replicate (width * height) colour))

/-- A call of `LT24_drawWindow`, by its arguments `(colour, x, y)`. -/
abbrev DrawWindowCall := Nat × Nat × Nat

/-- The loop of `LT24_drawColumn`: `n` bands remain, the next one is band `i` at height
`y`; each step calls `LT24_drawWindow` with the colour of band `i`, discards its status and
advances `y` by `windowHeight`.  The result is the final state and the calls made, in
order. -/
def drawColumnBands (cmd : LT24Commands) (g : LT24Geometry) (colours : List Nat) (x : Nat) :
    Nat → Nat → Nat → LT24 → LT24 × List DrawWindowCall
  | 0, _, _, s => (s, [])
  | n + 1, i, y, s =>
    let colour := colours.getD i 0
    let r := LT24_drawWindow cmd g s colour x y
    let rest := drawColumnBands cmd g colours x n (i + 1) (y + g.windowHeight) r.2
    (rest.1, (colour, x, y) :: rest.2)

/-- Modelled from the spec: the body of `LT24_drawColumn` (only its declaration is in the
header).  For the zero-based column `columnNumber` it takes the colours of the bands in
order, top to bottom, and calls `LT24_drawWindow` once per band, `x` fixed at
`columnNumber * columnPixelWidth` and `y` starting at 0 and advancing by `windowHeight`;
a column has `graphHeight / windowHeight` bands and the caller supplies one colour for
each.  No status is returned.  The embedding returns the state and the calls made. -/
def LT24_drawColumn (cmd : LT24Commands) (g : LT24Geometry) (s : LT24) (colours : List Nat)
    (columnNumber : Nat) : LT24 × List DrawWindowCall :=
  drawColumnBands cmd g colours (columnNumber * columnPixelWidth g) (bandsPerColumn g) 0 0 s

/-- The magnitudes that bound the four contiguous bands of the colour gradient, which the
specification does not fix: the sweep reaches cyan at `cyanAt`, green at `greenAt`, yellow
at `yellowAt` and red at `full`, the full-scale magnitude MAX. -/
structure MagnitudeBands where
  /-- End of the blue to cyan band. -/
  cyanAt : Nat
  /-- End of the cyan to green band. -/
  greenAt : Nat
  /-- End of the green to yellow band. -/
  yellowAt : Nat
  /-- Full-scale magnitude, end of the yellow to red band. -/
  full : Nat
deriving DecidableEq, Repr

/-- Linear rise from 0 to `top` over a band of length `len`, at position `pos`. -/
def ramp (top pos len : Nat) : Nat := top * pos / len

/-- Modelled from the spec: the body of `LT24_mapMagnitudeToColour` (only its declaration
is in the header).  The colour sweeps blue, cyan, green, yellow, red as the magnitude
grows, by piecewise-linear interpolation over four contiguous bands, each band moving one
channel linearly while the others are held at zero or at full scale (0x1F for red and
blue, 0x3F for green); the channels are packed with `LT24_makeColour`.  Magnitudes above
`full` are outside the contract. -/
def LT24_mapMagnitudeToColour (b : MagnitudeBands) (mag : Nat) : Nat :=
  if mag < b.cyanAt then
    LT24_makeColour 0 (ramp 0x3F mag b.cyanAt) 0x1F
  else if mag < b.greenAt then
    LT24_makeColour 0 0x3F (0x1F - ramp 0x1F (mag - b.cyanAt) (b.greenAt - b.cyanAt))
  else if mag < b.yellowAt then
    LT24_makeColour (ramp 0x1F (mag - b.greenAt) (b.yellowAt - b.greenAt)) 0x3F 0
  else
    LT24_makeColour 0x1F (0x3F - ramp 0x3F (mag - b.yellowAt) (b.full - b.yellowAt)) 0

/-- Four equal bands over the magnitudes 0 to 0xFFFF. -/
def sampleBands : MagnitudeBands := ⟨0x4000, 0x8000, 0xC000, 0xFFFF⟩

/-! ## Seven-segment driver: lemmas -/

theorem write_displayRegister (m : Memory) (d v : Nat) (hd : d < 6) :
    DE1SoC_SevenSeg_Write m d v (displayRegister d) = v % 2 ^ 8 := by
  interval_cases d <;>
    simp [DE1SoC_SevenSeg_Write, storeByte, displayRegister, SEVENSEG_N_DISPLAYS_LO,
      sevenseg_base_lo_ptr, sevenseg_base_hi_ptr]

theorem write_other_displayRegister (m : Memory) (d e v : Nat) (hd : d < 6) (he : e < 6)
    (hne : e ≠ d) :
    DE1SoC_SevenSeg_Write m d v (displayRegister e) = m (displayRegister e) := by
  interval_cases d <;> interval_cases e <;>
    first
      | exact absurd rfl hne
      | simp [DE1SoC_SevenSeg_Write, storeByte, displayRegister, SEVENSEG_N_DISPLAYS_LO,
          sevenseg_base_lo_ptr, sevenseg_base_hi_ptr]

theorem look_up_lt (v : Nat) (hv : v < 16) : look_up.getD v 0 < 2 ^ 7 := by
  interval_cases v <;> decide

theorem setSingle_digit (m : Memory) (d v : Nat) (hd : d < 6) (hv : v < 16) :
    DE1SoC_SevenSeg_SetSingle m d v (displayRegister d) = look_up.getD v 0 := by
  have h := look_up_lt v hv
  have hv16 : v < 0x10 := hv
  rw [DE1SoC_SevenSeg_SetSingle, if_pos hv16, write_displayRegister m d _ hd]
  exact Nat.mod_eq_of_lt (by omega)

theorem setSingle_dash (m : Memory) (d v : Nat) (hd : d < 6) (hv : 16 ≤ v) :
    DE1SoC_SevenSeg_SetSingle m d v (displayRegister d) = 0x40 := by
  have hv16 : ¬ v < 0x10 := by omega
  rw [DE1SoC_SevenSeg_SetSingle, if_neg hv16, write_displayRegister m d _ hd]
  decide

theorem setSingle_other (m : Memory) (d e v : Nat) (hd : d < 6) (he : e < 6) (hne : e ≠ d) :
    DE1SoC_SevenSeg_SetSingle m d v (displayRegister e) = m (displayRegister e) := by
  unfold DE1SoC_SevenSeg_SetSingle
  split <;> exact write_other_displayRegister m d e _ hd he hne

theorem succ_display (d : Nat) (hd : d ≤ 4) : (d + 1) % 2 ^ 32 = d + 1 :=
  Nat.mod_eq_of_lt (by omega)

theorem hex_digits (v : Nat) (hv : v < 0x100) :
    v &&& 0x0F = v % 16 ∧ (v &&& 0xF0) >>> 4 = v / 16 := by
  interval_cases v <;> exact ⟨rfl, rfl⟩

theorem dec_digits (v : Nat) (hv : v < 100) :
    ((v - v % 10) / 10) % 10 = v / 10 ∧ v % 10 < 10 ∧ v / 10 < 10 ∧
      10 * (v / 10) + v % 10 = v := by
  omega

/-! ## LT24 driver: lemmas -/

theorem pack565_eq_sum (r g b : Nat) (hg : g < 64) (hb : b < 32) :
    r <<< 11 ||| g <<< 5 ||| b = r * 2048 + g * 32 + b := by
  have h1 : r <<< 11 ||| g <<< 5 = 2 ^ 5 * (r * 64 + g) := by
    have hlt : g * 32 < 2 ^ 11 := by omega
    have h := Nat.mul_add_lt_is_or hlt r
    rw [Nat.shiftLeft_eq, Nat.shiftLeft_eq]
    have e1 : r * 2 ^ 11 = 2 ^ 11 * r := Nat.mul_comm _ _
    have e2 : g * 2 ^ 5 = g * 32 := rfl
    rw [e1, e2, ← h]
    omega
  have h2 := Nat.mul_add_lt_is_or (show b < 2 ^ 5 from hb) (r * 64 + g)
  rw [h1, ← h2]
  omega

theorem makeColour_eq_sum (R G B : Nat) :
    LT24_makeColour R G B = R % 32 * 2048 + G % 64 * 32 + B % 32 := by
  have hR : R &&& 0x1F = R % 32 := Nat.and_pow_two_sub_one_eq_mod R 5
  have hG : G &&& 0x3F = G % 64 := Nat.and_pow_two_sub_one_eq_mod G 6
  have hB : B &&& 0x1F = B % 32 := Nat.and_pow_two_sub_one_eq_mod B 5
  have hr : R % 32 < 32 := Nat.mod_lt _ (by decide)
  have hg : G % 64 < 64 := Nat.mod_lt _ (by decide)
  have hb : B % 32 < 32 := Nat.mod_lt _ (by decide)
  unfold LT24_makeColour
  rw [hR, hG, hB, pack565_eq_sum _ _ _ hg hb]
  omega

theorem setWindow_writes (cmd : LT24Commands) (s : LT24) (xleft ytop width height : Nat)
    (hinit : s.initialised = true) (hw : 1 ≤ width) (hh : 1 ≤ height)
    (hx : xleft + width ≤ 240) (hy : ytop + height ≤ 320) :
    LT24_setWindow cmd s xleft ytop width height =
      (LT24_SUCCESS,
        ⟨true, s.writes ++
          [(false, cmd.columnAddress % 2 ^ 16), (true, xleft), (true, xleft + width - 1),
           (false, cmd.rowAddress % 2 ^ 16), (true, ytop), (true, ytop + height - 1),
           (false, cmd.memoryWrite % 2 ^ 16)]⟩) := by
  have h1 : ¬ (width < 1 ∨ height < 1) := by omega
  have h2 : ¬ (LT24_WIDTH < xleft + width ∨ LT24_HEIGHT < ytop + height) := by
    unfold LT24_WIDTH LT24_HEIGHT; omega
  have e1 : xleft % 2 ^ 16 = xleft := Nat.mod_eq_of_lt (by omega)
  have e2 : (xleft + width - 1) % 2 ^ 16 = xleft + width - 1 := Nat.mod_eq_of_lt (by omega)
  have e3 : ytop % 2 ^ 16 = ytop := Nat.mod_eq_of_lt (by omega)
  have e4 : (ytop + height - 1) % 2 ^ 16 = ytop + height - 1 := Nat.mod_eq_of_lt (by omega)
  simp only [LT24_setWindow, LT24_isInitialised, hinit, Bool.true_eq_false, if_false, h1, h2,
    LT24_write, e1, e2, e3, e4, List.append_assoc, List.cons_append, List.nil_append]

/-! ## Seven-segment driver: claims -/

/-- C6: `DE1SoC_SevenSeg_Write` stores the byte `v` at index `d` of the low bank when
`d < 4` and at index `d - 4` of the high bank when `d` is 4 or 5, and changes no other
byte of memory; seen through the six display registers, display `d` receives `v` and the
other five displays keep their value. -/
theorem write_seamless (m : Memory) (d v : Nat) (hv : v < 2 ^ 8) :
    (d < 4 →
      DE1SoC_SevenSeg_Write m d v (sevenseg_base_lo_ptr + d) = v ∧
      ∀ a, a ≠ sevenseg_base_lo_ptr + d → DE1SoC_SevenSeg_Write m d v a = m a) ∧
    (d = 4 ∨ d = 5 →
      DE1SoC_SevenSeg_Write m d v (sevenseg_base_hi_ptr + (d - 4)) = v ∧
      ∀ a, a ≠ sevenseg_base_hi_ptr + (d - 4) → DE1SoC_SevenSeg_Write m d v a = m a) ∧
    (d < 6 →
      DE1SoC_SevenSeg_Write m d v (displayRegister d) = v ∧
      ∀ e, e < 6 → e ≠ d →
        DE1SoC_SevenSeg_Write m d v (displayRegister e) = m (displayRegister e)) := by
  have hmod : v % 2 ^ 8 = v := Nat.mod_eq_of_lt hv
  refine ⟨fun hd => ?_, fun hd => ?_, fun hd => ?_⟩
  · have hlo : d < SEVENSEG_N_DISPLAYS_LO := hd
    rw [DE1SoC_SevenSeg_Write, if_pos hlo, hmod]
    exact ⟨if_pos rfl, fun a ha => if_neg ha⟩
  · have hhi : ¬ d < SEVENSEG_N_DISPLAYS_LO := by
      unfold SEVENSEG_N_DISPLAYS_LO; omega
    rw [DE1SoC_SevenSeg_Write, if_neg hhi, hmod]
    exact ⟨if_pos rfl, fun a ha => if_neg ha⟩
  · refine ⟨?_, fun e he hne => write_other_displayRegister m d e v hd he hne⟩
    rw [write_displayRegister m d v hd, hmod]

/-- C3: for a display `d < 6` and a value `v < 16`, `DE1SoC_SevenSeg_SetSingle` leaves in
the register of display `d` entry `v` of the table 0x3F, 0x06, 0x5B, 0x4F, 0x66, 0x6D,
0x7D, 0x07, 0x7F, 0x67, 0x77, 0x7C, 0x39, 0x5E, 0x79, 0x71, a pattern that uses only the
seven segment bits 0 to 6. -/
theorem setSingle_bitmap (m : Memory) (d v : Nat) (hd : d < 6) (hv : v < 16) :
    DE1SoC_SevenSeg_SetSingle m d v (displayRegister d) =
      [0x3F, 0x06, 0x5B, 0x4F, 0x66, 0x6D, 0x7D, 0x07,
       0x7F, 0x67, 0x77, 0x7C, 0x39, 0x5E, 0x79, 0x71].getD v 0 ∧
    DE1SoC_SevenSeg_SetSingle m d v (displayRegister d) < 2 ^ 7 := by
  rw [setSingle_digit m d v hd hv]
  exact ⟨rfl, look_up_lt v hv⟩

/-- C4: for a display `d < 6` and any value `v ≥ 16`, `DE1SoC_SevenSeg_SetSingle` leaves
the dash pattern 0x40 (bit 6 alone, the middle segment) in the register of display `d`. -/
theorem setSingle_out_of_range (m : Memory) (d v : Nat) (hd : d < 6) (hv : 16 ≤ v) :
    DE1SoC_SevenSeg_SetSingle m d v (displayRegister d) = 0x40 ∧ (0x40 : Nat) = 2 ^ 6 :=
  ⟨setSingle_dash m d v hd hv, by decide⟩

/-- C1: for a display `d ≤ 4` and a value `v < 100`, `DE1SoC_SevenSeg_SetDoubleDec` leaves
the pattern of the digit `v mod 10` in register `d` and the pattern of the digit
`v div 10` in register `d + 1`; both digits are below 10 and recompose to `v`. -/
theorem setDoubleDec_digits (m : Memory) (d v : Nat) (hd : d ≤ 4) (hv : v < 100) :
    DE1SoC_SevenSeg_SetDoubleDec m d v (displayRegister d) = look_up.getD (v % 10) 0 ∧
    DE1SoC_SevenSeg_SetDoubleDec m d v (displayRegister (d + 1)) = look_up.getD (v / 10) 0 ∧
    v % 10 < 10 ∧ v / 10 < 10 ∧ 10 * (v / 10) + v % 10 = v := by
  obtain ⟨hmsd, hlo, hhi, hsum⟩ := dec_digits v hv
  refine ⟨?_, ?_, hlo, hhi, hsum⟩
  · simp only [DE1SoC_SevenSeg_SetDoubleDec, if_pos hv, succ_display d hd]
    rw [setSingle_other _ (d + 1) d _ (by omega) (by omega) (by omega)]
    exact setSingle_digit m d _ (by omega) (by omega)
  · simp only [DE1SoC_SevenSeg_SetDoubleDec, if_pos hv, succ_display d hd, hmsd]
    exact setSingle_digit _ (d + 1) _ (by omega) (by omega)

/-- C2: for a display `d ≤ 4` and a value `v < 0x100`, `DE1SoC_SevenSeg_SetDoubleHex`
leaves the pattern of the hex digit `v AND 0x0F` in register `d` and the pattern of the hex
digit `v >> 4` in register `d + 1`; both digits are below 16 and recompose to `v`. -/
theorem setDoubleHex_digits (m : Memory) (d v : Nat) (hd : d ≤ 4) (hv : v < 0x100) :
    DE1SoC_SevenSeg_SetDoubleHex m d v (displayRegister d) = look_up.getD (v &&& 0x0F) 0 ∧
    DE1SoC_SevenSeg_SetDoubleHex m d v (displayRegister (d + 1)) =
      look_up.getD (v >>> 4) 0 ∧
    v &&& 0x0F < 16 ∧ v >>> 4 < 16 ∧ 16 * (v >>> 4) + (v &&& 0x0F) = v := by
  obtain ⟨hlsd, hmsd⟩ := hex_digits v hv
  have hshift : v >>> 4 = v / 16 := Nat.shiftRight_eq_div_pow v 4
  have hv256 : v < 256 := hv
  refine ⟨?_, ?_, by omega, by omega, by omega⟩
  · simp only [DE1SoC_SevenSeg_SetDoubleHex, if_pos hv, succ_display d hd]
    rw [setSingle_other _ (d + 1) d _ (by omega) (by omega) (by omega)]
    exact setSingle_digit m d _ (by omega) (by omega)
  · simp only [DE1SoC_SevenSeg_SetDoubleHex, if_pos hv, succ_display d hd, hmsd, hshift]
    exact setSingle_digit _ (d + 1) _ (by omega) (by omega)

/-- C5: for a display `d ≤ 4`, `DE1SoC_SevenSeg_SetDoubleHex` with `v ≥ 0x100` and
`DE1SoC_SevenSeg_SetDoubleDec` with `v ≥ 100` leave the dash pattern 0x40 in both register
`d` and register `d + 1`. -/
theorem setDouble_out_of_range (m : Memory) (d v : Nat) (hd : d ≤ 4) :
    (0x100 ≤ v →
      DE1SoC_SevenSeg_SetDoubleHex m d v (displayRegister d) = 0x40 ∧
      DE1SoC_SevenSeg_SetDoubleHex m d v (displayRegister (d + 1)) = 0x40) ∧
    (100 ≤ v →
      DE1SoC_SevenSeg_SetDoubleDec m d v (displayRegister d) = 0x40 ∧
      DE1SoC_SevenSeg_SetDoubleDec m d v (displayRegister (d + 1)) = 0x40) := by
  constructor
  · intro hv
    have hnot : ¬ v < 0x100 := by omega
    simp only [DE1SoC_SevenSeg_SetDoubleHex, if_neg hnot, succ_display d hd]
    refine ⟨?_, setSingle_dash _ (d + 1) 0x10 (by omega) (by decide)⟩
    rw [setSingle_other _ (d + 1) d _ (by omega) (by omega) (by omega)]
    exact setSingle_dash m d 0x10 (by omega) (by decide)
  · intro hv
    have hnot : ¬ v < 100 := by omega
    simp only [DE1SoC_SevenSeg_SetDoubleDec, if_neg hnot, succ_display d hd]
    refine ⟨?_, setSingle_dash _ (d + 1) 0x10 (by omega) (by decide)⟩
    rw [setSingle_other _ (d + 1) d _ (by omega) (by omega) (by omega)]
    exact setSingle_dash m d 0x10 (by omega) (by decide)

/-- Witness of C1: display 0 and the value 42 on a zeroed memory leave 0x5B in register 0
and 0x66 in register 1. -/
theorem setDoubleDec_digits_witness :
    (0 ≤ 4 ∧ 42 < 100) ∧
    (DE1SoC_SevenSeg_SetDoubleDec zeroMemory 0 42 (displayRegister 0) = 0x5B ∧
     DE1SoC_SevenSeg_SetDoubleDec zeroMemory 0 42 (displayRegister (0 + 1)) = 0x66 ∧
     42 % 10 < 10 ∧ 42 / 10 < 10 ∧ 10 * (42 / 10) + 42 % 10 = 42) :=
  ⟨⟨by decide, by decide⟩, setDoubleDec_digits zeroMemory 0 42 (by decide) (by decide)⟩

/-- Witness of C2: display 4 and the value 0xA7 on a zeroed memory leave the pattern of 7
in register 4 and the pattern of A in register 5. -/
theorem setDoubleHex_digits_witness :
    (4 ≤ 4 ∧ 0xA7 < 0x100) ∧
    (DE1SoC_SevenSeg_SetDoubleHex zeroMemory 4 0xA7 (displayRegister 4) = 0x07 ∧
     DE1SoC_SevenSeg_SetDoubleHex zeroMemory 4 0xA7 (displayRegister (4 + 1)) = 0x77 ∧
     0xA7 &&& 0x0F < 16 ∧ 0xA7 >>> 4 < 16 ∧ 16 * (0xA7 >>> 4) + (0xA7 &&& 0x0F) = 0xA7) :=
  ⟨⟨by decide, by decide⟩, setDoubleHex_digits zeroMemory 4 0xA7 (by decide) (by decide)⟩

/-- Witness of C3: display 5 and the value 11 leave the pattern 0x7C in register 5. -/
theorem setSingle_bitmap_witness :
    (5 < 6 ∧ 11 < 16) ∧
    (DE1SoC_SevenSeg_SetSingle zeroMemory 5 11 (displayRegister 5) = 0x7C ∧
     DE1SoC_SevenSeg_SetSingle zeroMemory 5 11 (displayRegister 5) < 2 ^ 7) :=
  ⟨⟨by decide, by decide⟩, setSingle_bitmap zeroMemory 5 11 (by decide) (by decide)⟩

/-- Witness of C4: display 2 and the value 16 leave the dash in register 2. -/
theorem setSingle_out_of_range_witness :
    (2 < 6 ∧ 16 ≤ 16) ∧
    (DE1SoC_SevenSeg_SetSingle zeroMemory 2 16 (displayRegister 2) = 0x40 ∧
     (0x40 : Nat) = 2 ^ 6) :=
  ⟨⟨by decide, by decide⟩, setSingle_out_of_range zeroMemory 2 16 (by decide) (by decide)⟩

/-- Witness of C5: on displays 3 and 4, the hex value 0x100 and the decimal value 100 both
leave two dashes. -/
theorem setDouble_out_of_range_witness :
    3 ≤ 4 ∧
    (DE1SoC_SevenSeg_SetDoubleHex zeroMemory 3 0x100 (displayRegister 3) = 0x40 ∧
     DE1SoC_SevenSeg_SetDoubleHex zeroMemory 3 0x100 (displayRegister (3 + 1)) = 0x40) ∧
    (DE1SoC_SevenSeg_SetDoubleDec zeroMemory 3 100 (displayRegister 3) = 0x40 ∧
     DE1SoC_SevenSeg_SetDoubleDec zeroMemory 3 100 (displayRegister (3 + 1)) = 0x40) :=
  ⟨by decide,
    (setDouble_out_of_range zeroMemory 3 0x100 (by decide)).1 (by decide),
    (setDouble_out_of_range zeroMemory 3 100 (by decide)).2 (by decide)⟩

/-- Witness of C6: on a zeroed memory, writing 0x5B to display 4 puts it at index 0 of the
high bank and leaves display 3 at zero, and writing 0x3F to display 2 puts it at index 2 of
the low bank. -/
theorem write_seamless_witness :
    (0x5B < 2 ^ 8 ∧ 0x3F < 2 ^ 8 ∧ 2 < 4 ∧ (4 = 4 ∨ 4 = 5) ∧ 4 < 6) ∧
    DE1SoC_SevenSeg_Write zeroMemory 2 0x3F (sevenseg_base_lo_ptr + 2) = 0x3F ∧
    DE1SoC_SevenSeg_Write zeroMemory 4 0x5B (sevenseg_base_hi_ptr + (4 - 4)) = 0x5B ∧
    DE1SoC_SevenSeg_Write zeroMemory 4 0x5B (displayRegister 3) = 0 :=
  ⟨by decide,
    ((write_seamless zeroMemory 2 0x3F (by decide)).1 (by decide)).1,
    ((write_seamless zeroMemory 4 0x5B (by decide)).2.1 (Or.inl rfl)).1,
    ((write_seamless zeroMemory 4 0x5B (by decide)).2.2 (by decide)).2 3 (by decide)
      (by decide)⟩

/-! ## LT24 driver: claims -/

/-- C7, as stated, fails: the header's `LT24_GREEN` is `0x1F << 6 = 0x07C0`, which is
neither 0x07E0 nor the colour word `LT24_makeColour(0, 0xFF, 0)`. -/
theorem LT24_GREEN_not_full_green :
    LT24_GREEN ≠ 0x07E0 ∧ LT24_GREEN ≠ LT24_makeColour 0 0xFF 0 := by
  decide

/-- C7, amended: `LT24_RED` and `LT24_BLUE` are the full-intensity red and blue of the 5-6-5
colour word, `LT24_makeColour(0xFF, 0, 0) = 0xF800` and `LT24_makeColour(0, 0, 0xFF) =
0x001F`; `LT24_GREEN` is `0x1F << 6 = 0x07C0`, the upper five bits of the six-bit green
field, that is `LT24_makeColour(0, 0x3E, 0)`, while `LT24_makeColour(0, 0xFF, 0)` is
0x07E0. -/
theorem LT24_basic_colours :
    LT24_RED = LT24_makeColour 0xFF 0 0 ∧ LT24_RED = 0xF800 ∧
    LT24_BLUE = LT24_makeColour 0 0 0xFF ∧ LT24_BLUE = 0x001F ∧
    LT24_GREEN = 0x07C0 ∧ LT24_GREEN = LT24_makeColour 0 0x3E 0 ∧
    LT24_makeColour 0 0xFF 0 = 0x07E0 := by
  decide

/-- C8: for all channel values, `LT24_makeColour(R, G, B)` is
`((R mod 32) << 11) | ((G mod 64) << 5) | (B mod 32)`, a 16-bit word, and decoding its
three fields gives back each channel truncated to its width (5, 6 and 5 bits). -/
theorem LT24_makeColour_truncates (R G B : Nat) :
    LT24_makeColour R G B = ((R % 32) <<< 11) ||| ((G % 64) <<< 5) ||| (B % 32) ∧
    LT24_makeColour R G B < 2 ^ 16 ∧
    (LT24_makeColour R G B >>> 11) % 32 = R % 32 ∧
    (LT24_makeColour R G B >>> 5) % 64 = G % 64 ∧
    LT24_makeColour R G B % 32 = B % 32 := by
  have hsum := makeColour_eq_sum R G B
  have hr : R % 32 < 32 := Nat.mod_lt _ (by decide)
  have hg : G % 64 < 64 := Nat.mod_lt _ (by decide)
  have hb : B % 32 < 32 := Nat.mod_lt _ (by decide)
  have hlt : LT24_makeColour R G B < 2 ^ 16 := by omega
  refine ⟨?_, hlt, ?_, ?_, ?_⟩
  · rw [hsum, pack565_eq_sum _ _ _ hg hb]
  · rw [Nat.shiftRight_eq_div_pow]; omega
  · rw [Nat.shiftRight_eq_div_pow]; omega
  · omega

/-- C9: on an initialised driver, `LT24_setWindow` with `xleft + width > 240`, or
`ytop + height > 320`, or a zero width or height returns `LT24_INVALIDSIZE` and leaves the
state as it was: no device write is issued. -/
theorem LT24_setWindow_invalid (cmd : LT24Commands) (s : LT24)
    (xleft ytop width height : Nat) (hinit : LT24_isInitialised s = true)
    (hbad : 240 < xleft + width ∨ 320 < ytop + height ∨ width = 0 ∨ height = 0) :
    LT24_setWindow cmd s xleft ytop width height = (LT24_INVALIDSIZE, s) ∧
    (LT24_setWindow cmd s xleft ytop width height).2.writes = s.writes := by
  have hres : LT24_setWindow cmd s xleft ytop width height = (LT24_INVALIDSIZE, s) := by
    unfold LT24_setWindow
    rw [if_neg (by simp [hinit])]
    by_cases h1 : width < 1 ∨ height < 1
    · rw [if_pos h1]
    · rw [if_neg h1, if_pos]
      unfold LT24_WIDTH LT24_HEIGHT
      omega
  exact ⟨hres, by rw [hres]⟩

/-- Witness of C9: a 1x1 window at column 240 of a freshly initialised driver. -/
theorem LT24_setWindow_invalid_witness :
    LT24_isInitialised initialisedLT24 = true ∧
    (240 < 240 + 1 ∨ 320 < 0 + 1 ∨ 1 = 0 ∨ 1 = 0) ∧
    LT24_setWindow sampleCommands initialisedLT24 240 0 1 1 =
      (LT24_INVALIDSIZE, initialisedLT24) ∧
    (LT24_setWindow sampleCommands initialisedLT24 240 0 1 1).2.writes = [] :=
  ⟨rfl, by decide,
    LT24_setWindow_invalid sampleCommands initialisedLT24 240 0 1 1 rfl (by decide)⟩

/-- On an initialised driver `LT24_drawPixel(colour, x, y)` returns `LT24_INVALIDSIZE`
without any device write whenever `x ≥ 240` or `y ≥ 320`; for `x < 240` and `y < 320` it
returns `LT24_SUCCESS` after `LT24_setWindow(x, y, 1, 1)` has succeeded, its writes being
those of that 1x1 window at `(x, y)` followed by exactly one data word, the colour. -/
theorem LT24_drawPixel_bounds (cmd : LT24Commands) (s : LT24) (colour x y : Nat)
    (hinit : LT24_isInitialised s = true) :
    ((240 ≤ x ∨ 320 ≤ y) → LT24_drawPixel cmd s colour x y = (LT24_INVALIDSIZE, s)) ∧
    (x < 240 → y < 320 →
      (LT24_setWindow cmd s x y 1 1).1 = LT24_SUCCESS ∧
      (LT24_drawPixel cmd s colour x y).1 = LT24_SUCCESS ∧
      (LT24_drawPixel cmd s colour x y).2.writes =
        (LT24_setWindow cmd s x y 1 1).2.writes ++ [(true, colour % 2 ^ 16)] ∧
      (LT24_drawPixel cmd s colour x y).2.writes =
        s.writes ++
          [(false, cmd.columnAddress % 2 ^ 16), (true, x), (true, x),
           (false, cmd.rowAddress % 2 ^ 16), (true, y), (true, y),
           (false, cmd.memoryWrite % 2 ^ 16), (true, colour % 2 ^ 16)]) := by
  have hi : ¬ (LT24_isInitialised s = false) := by simp [hinit]
  constructor
  · intro hbad
    have hnot : ¬ (x < LT24_WIDTH ∧ y < LT24_HEIGHT) := by
      unfold LT24_WIDTH LT24_HEIGHT; omega
    rw [LT24_drawPixel, if_neg hi, if_pos hnot]
  · intro hx hy
    have hin : ¬ ¬ (x < LT24_WIDTH ∧ y < LT24_HEIGHT) := not_not.mpr ⟨hx, hy⟩
    have hw := setWindow_writes cmd s x y 1 1 hinit (le_refl 1) (le_refl 1) (by omega)
      (by omega)
    have hdraw : LT24_drawPixel cmd s colour x y =
        (LT24_SUCCESS, LT24_write (LT24_setWindow cmd s x y 1 1).2 true colour) := by
      rw [LT24_drawPixel, if_neg hi, if_neg hin, hw]
      simp
    refine ⟨by rw [hw], by rw [hdraw], by rw [hdraw]; rfl, ?_⟩
    rw [hdraw, hw]
    simp [LT24_write]

/-- On a freshly initialised driver the pixel (240, 0) is refused and the pixel
(239, 319) is drawn with eight device writes. -/
theorem LT24_drawPixel_bounds_witness :
    LT24_isInitialised initialisedLT24 = true ∧
    LT24_drawPixel sampleCommands initialisedLT24 0x001F 240 0 =
      (LT24_INVALIDSIZE, initialisedLT24) ∧
    (LT24_drawPixel sampleCommands initialisedLT24 0x001F 239 319).2.writes =
      [(false, 0x2A), (true, 239), (true, 239), (false, 0x2B), (true, 319), (true, 319),
       (false, 0x2C), (true, 0x001F)] :=
  ⟨rfl,
    (LT24_drawPixel_bounds sampleCommands initialisedLT24 0x001F 240 0 rfl).1
      (Or.inl (by decide)),
    ((LT24_drawPixel_bounds sampleCommands initialisedLT24 0x001F 239 319 rfl).2
      (by decide) (by decide)).2.2.2⟩

/-! ## LT24 driver: lemmas on the transfer and geometry layers -/

theorem setWindow_uninitialised (cmd : LT24Commands) (s : LT24)
    (xleft ytop width height : Nat) (h : LT24_isInitialised s = false) :
    LT24_setWindow cmd s xleft ytop width height = (LT24_ERRORNOINIT, s) := by
  rw [LT24_setWindow, if_pos h]

theorem errorNoInit_ne_success : LT24_ERRORNOINIT ≠ LT24_SUCCESS := by decide

theorem drawWindow_status (cmd : LT24Commands) (g : LT24Geometry) (s : LT24)
    (colour x y : Nat) :
    (LT24_drawWindow cmd g s colour x y).1 =
      (LT24_setWindow cmd s x y (g.graphWidth / g.columns) g.windowHeight).1 := by
  unfold LT24_drawWindow windowRectangle columnPixelWidth
  dsimp only
  split
  · rfl
  · next h => exact (not_not.mp h).symm

theorem drawColumnBands_calls (cmd : LT24Commands) (g : LT24Geometry) (colours : List Nat)
    (x n : Nat) :
    ∀ (i y : Nat) (s : LT24),
      (drawColumnBands cmd g colours x n i y s).2 =
        (List.range n).map (fun k => (colours.getD (i + k) 0, x, y + k * g.windowHeight)) := by
  induction n with
  | zero => intro i y s; rfl
  | succ n ih =>
    intro i y s
    rw [drawColumnBands, List.range_succ_eq_map, List.map_cons, List.map_map]
    dsimp only
    rw [ih]
    refine congrArg₂ List.cons ?_ ?_
    · simp
    · refine List.map_congr_left (fun k _ => ?_)
      have e1 : i + 1 + k = i + (k + 1) := by omega
      have e2 : y + g.windowHeight + k * g.windowHeight = y + (k + 1) * g.windowHeight := by
        rw [Nat.succ_mul]; omega
      simp only [Function.comp, Nat.succ_eq_add_one, e1, e2]

theorem stream_eq (words : List Nat) :
    ∀ s : LT24, LT24_stream s words =
      ⟨s.initialised, s.writes ++ words.map (fun w => (true, w % 2 ^ 16))⟩ := by
  induction words with
  | nil => intro s; simp [LT24_stream]
  | cons w rest ih =>
    intro s
    have h := ih (LT24_write s true w)
    unfold LT24_stream at h ⊢
    rw [List.foldl_cons, h]
    simp [LT24_write]

theorem drawWindow_success (cmd : LT24Commands) (g : LT24Geometry) (s : LT24)
    (colour x y : Nat) (hinit : s.initialised = true)
    (hw : 1 ≤ g.graphWidth / g.columns) (hh : 1 ≤ g.windowHeight)
    (hx : x + g.graphWidth / g.columns ≤ 240) (hy : y + g.windowHeight ≤ 320) :
    LT24_drawWindow cmd g s colour x y =
      (LT24_SUCCESS,
        ⟨true, s.writes ++
          ([(false, cmd.columnAddress % 2 ^ 16), (true, x),
            (true, x + g.graphWidth / g.columns - 1),
            (false, cmd.rowAddress % 2 ^ 16), (true, y), (true, y + g.windowHeight - 1),
            (false, cmd.memoryWrite % 2 ^ 16)] ++
           List.replicate (g.graphWidth / g.columns * g.windowHeight)
             (true, colour % 2 ^ 16))⟩) := by
  unfold LT24_drawWindow windowRectangle columnPixelWidth
  dsimp only
  rw [setWindow_writes cmd s x y _ _ hinit hw hh hx hy]
  dsimp only
  rw [if_neg (not_not.mpr rfl), stream_eq]
  simp

theorem drawColumnBands_fold (cmd : LT24Commands) (g : LT24Geometry) (colours : List Nat)
    (x n : Nat) :
    ∀ (i y : Nat) (s : LT24),
      (drawColumnBands cmd g colours x n i y s).1 =
        (drawColumnBands cmd g colours x n i y s).2.foldl
          (fun t call => (LT24_drawWindow cmd g t call.1 call.2.1 call.2.2).2) s := by
  induction n with
  | zero => intro i y s; rfl
  | succ n ih =>
    intro i y s
    rw [drawColumnBands]
    dsimp only
    rw [List.foldl_cons]
    exact ih _ _ _

theorem drawColumnBands_writes (cmd : LT24Commands) (g : LT24Geometry) (colours : List Nat)
    (x n : Nat) (hw : 1 ≤ g.graphWidth / g.columns) (hh : 1 ≤ g.windowHeight)
    (hx : x + g.graphWidth / g.columns ≤ 240) :
    ∀ (i y : Nat) (s : LT24), s.initialised = true → y + n * g.windowHeight ≤ 320 →
      (drawColumnBands cmd g colours x n i y s).1 =
        ⟨true, s.writes ++ (List.range n).flatMap (fun k =>
          [(false, cmd.columnAddress % 2 ^ 16), (true, x),
            (true, x + g.graphWidth / g.columns - 1),
            (false, cmd.rowAddress % 2 ^ 16), (true, y + k * g.windowHeight),
            (true, y + k * g.windowHeight + g.windowHeight - 1),
            (false, cmd.memoryWrite % 2 ^ 16)] ++
           List.replicate (g.graphWidth / g.columns * g.windowHeight)
             (true, colours.getD (i + k) 0 % 2 ^ 16))⟩ := by
  induction n with
  | zero =>
    intro i y s hinit _
    cases s
    simp_all [drawColumnBands]
  | succ n ih =>
    intro i y s hinit hy
    have hy1 : y + g.windowHeight ≤ 320 := by
      have : g.windowHeight ≤ (n + 1) * g.windowHeight := Nat.le_mul_of_pos_left _ (by omega)
      omega
    have hy2 : y + g.windowHeight + n * g.windowHeight ≤ 320 := by
      rw [Nat.succ_mul] at hy; omega
    rw [drawColumnBands]
    dsimp only
    rw [drawWindow_success cmd g s _ x y hinit hw hh hx hy1]
    dsimp only
    rw [ih (i + 1) (y + g.windowHeight) _ rfl hy2, List.range_succ_eq_map,
      List.flatMap_cons, List.flatMap_map]
    have e1 : ∀ k, y + g.windowHeight + k * g.windowHeight = y + (k + 1) * g.windowHeight := by
      intro k; rw [Nat.succ_mul]; omega
    have e2 : ∀ k, i + 1 + k = i + (k + 1) := by intro k; omega
    simp only [List.append_assoc, Nat.zero_mul, Nat.add_zero, Function.comp,
      Nat.succ_eq_add_one, e1, e2, List.cons_append, List.nil_append]

/-! ## LT24 driver: claims on the transfer and geometry layers -/

/-- C11: after `LT24_initGeometries(graphWidth, graphHeight, columns, windowHeight)` with
`columns > 0`, `LT24_drawColumn(colours, c)` calls `LT24_drawWindow` once per band, top to
bottom, band `i` with its colour at `x = c * (graphWidth / columns)` and
`y = i * windowHeight`: the state it leaves is the state reached by making exactly these
calls one after the other, and each call addresses the rectangle of size
`(graphWidth / columns) x windowHeight` at that point.  On an initialised driver, when the
column fits the panel, the device receives for each band in turn the window addressing of
that rectangle followed by one colour word per pixel.  For
`initGeometries(240, 320, 4, 40)` and column 0 these are exactly 8 calls at `x = 0` and
`y = 0, 40, ..., 280`, each 60x40 and inside the 240x320 panel; on an initialised driver
each of them succeeds and the device receives, band after band, the addressing of columns
0 to 59 and rows `40 i` to `40 i + 39` followed by 2400 words of the band's colour. -/
theorem LT24_drawColumn_bands (cmd : LT24Commands) (s : LT24)
    (graphWidth graphHeight columns windowHeight : Nat) (colours : List Nat) (c : Nat)
    (hcols : 0 < columns) :
    (LT24_drawColumn cmd (LT24_initGeometries graphWidth graphHeight columns windowHeight) s
        colours c).2 =
      (List.range (graphHeight / windowHeight)).map
        (fun i => (colours.getD i 0, c * (graphWidth / columns), i * windowHeight)) ∧
    (LT24_drawColumn cmd (LT24_initGeometries graphWidth graphHeight columns windowHeight) s
        colours c).1 =
      ((List.range (graphHeight / windowHeight)).map
        (fun i => (colours.getD i 0, c * (graphWidth / columns), i * windowHeight))).foldl
        (fun t call =>
          (LT24_drawWindow cmd
            (LT24_initGeometries graphWidth graphHeight columns windowHeight) t
            call.1 call.2.1 call.2.2).2) s ∧
    (∀ (t : LT24) (colour x y : Nat),
      windowRectangle (LT24_initGeometries graphWidth graphHeight columns windowHeight) x y =
        (x, y, graphWidth / columns, windowHeight) ∧
      (LT24_drawWindow cmd (LT24_initGeometries graphWidth graphHeight columns windowHeight)
          t colour x y).1 =
        (LT24_setWindow cmd t x y (graphWidth / columns) windowHeight).1) ∧
    (LT24_isInitialised s = true → 1 ≤ graphWidth / columns → 1 ≤ windowHeight →
      c * (graphWidth / columns) + graphWidth / columns ≤ 240 →
      graphHeight / windowHeight * windowHeight ≤ 320 →
      (LT24_drawColumn cmd (LT24_initGeometries graphWidth graphHeight columns windowHeight)
          s colours c).1.writes =
        s.writes ++ (List.range (graphHeight / windowHeight)).flatMap (fun i =>
          [(false, cmd.columnAddress % 2 ^ 16), (true, c * (graphWidth / columns)),
            (true, c * (graphWidth / columns) + graphWidth / columns - 1),
            (false, cmd.rowAddress % 2 ^ 16), (true, i * windowHeight),
            (true, i * windowHeight + windowHeight - 1),
            (false, cmd.memoryWrite % 2 ^ 16)] ++
           List.replicate (graphWidth / columns * windowHeight)
             (true, colours.getD i 0 % 2 ^ 16))) ∧
    (LT24_drawColumn cmd (LT24_initGeometries 240 320 4 40) s colours 0).2 =
      [(colours.getD 0 0, 0, 0), (colours.getD 1 0, 0, 40), (colours.getD 2 0, 0, 80),
       (colours.getD 3 0, 0, 120), (colours.getD 4 0, 0, 160), (colours.getD 5 0, 0, 200),
       (colours.getD 6 0, 0, 240), (colours.getD 7 0, 0, 280)] ∧
    (∀ x y, windowRectangle (LT24_initGeometries 240 320 4 40) x y = (x, y, 60, 40)) ∧
    (∀ call ∈ (LT24_drawColumn cmd (LT24_initGeometries 240 320 4 40) s colours 0).2,
      call.2.1 + 60 ≤ 240 ∧ call.2.2 + 40 ≤ 320) ∧
    (∀ (t : LT24) (i : Nat), LT24_isInitialised t = true → i < 8 →
      (LT24_drawWindow cmd (LT24_initGeometries 240 320 4 40) t (colours.getD i 0) 0
        (i * 40)).1 = LT24_SUCCESS) ∧
    (LT24_isInitialised s = true →
      (LT24_drawColumn cmd (LT24_initGeometries 240 320 4 40) s colours 0).1.writes =
        s.writes ++ (List.range 8).flatMap (fun i =>
          [(false, cmd.columnAddress % 2 ^ 16), (true, 0), (true, 59),
            (false, cmd.rowAddress % 2 ^ 16), (true, i * 40), (true, i * 40 + 39),
            (false, cmd.memoryWrite % 2 ^ 16)] ++
           List.replicate 2400 (true, colours.getD i 0 % 2 ^ 16))) := by
  have hpos : 0 < columns := hcols
  have hcalls : ∀ (g : LT24Geometry),
      (LT24_drawColumn cmd g s colours c).2 =
        (List.range (g.graphHeight / g.windowHeight)).map
          (fun i => (colours.getD i 0, c * (g.graphWidth / g.columns), i * g.windowHeight)) := by
    intro g
    rw [LT24_drawColumn, drawColumnBands_calls]
    simp [bandsPerColumn, columnPixelWidth]
  have hfold : ∀ (g : LT24Geometry),
      (LT24_drawColumn cmd g s colours c).1 =
        ((List.range (g.graphHeight / g.windowHeight)).map
          (fun i => (colours.getD i 0, c * (g.graphWidth / g.columns),
            i * g.windowHeight))).foldl
          (fun t call => (LT24_drawWindow cmd g t call.1 call.2.1 call.2.2).2) s := by
    intro g
    rw [← hcalls g]
    exact drawColumnBands_fold cmd g colours _ _ 0 0 s
  have hwrites : ∀ (g : LT24Geometry) (k : Nat), LT24_isInitialised s = true →
      1 ≤ g.graphWidth / g.columns → 1 ≤ g.windowHeight →
      k * (g.graphWidth / g.columns) + g.graphWidth / g.columns ≤ 240 →
      g.graphHeight / g.windowHeight * g.windowHeight ≤ 320 →
      (LT24_drawColumn cmd g s colours k).1.writes =
        s.writes ++ (List.range (g.graphHeight / g.windowHeight)).flatMap (fun i =>
          [(false, cmd.columnAddress % 2 ^ 16), (true, k * (g.graphWidth / g.columns)),
            (true, k * (g.graphWidth / g.columns) + g.graphWidth / g.columns - 1),
            (false, cmd.rowAddress % 2 ^ 16), (true, i * g.windowHeight),
            (true, i * g.windowHeight + g.windowHeight - 1),
            (false, cmd.memoryWrite % 2 ^ 16)] ++
           List.replicate (g.graphWidth / g.columns * g.windowHeight)
             (true, colours.getD i 0 % 2 ^ 16)) := by
    intro g k hinit hw hh hx hy
    have h := drawColumnBands_writes cmd g colours (k * (g.graphWidth / g.columns))
      (g.graphHeight / g.windowHeight) hw hh hx 0 0 s hinit (by omega)
    rw [LT24_drawColumn]
    unfold bandsPerColumn columnPixelWidth
    rw [h]
    simp only [Nat.zero_add]
  have h8 : (LT24_drawColumn cmd (LT24_initGeometries 240 320 4 40) s colours 0).2 =
      [(colours.getD 0 0, 0, 0), (colours.getD 1 0, 0, 40), (colours.getD 2 0, 0, 80),
       (colours.getD 3 0, 0, 120), (colours.getD 4 0, 0, 160), (colours.getD 5 0, 0, 200),
       (colours.getD 6 0, 0, 240), (colours.getD 7 0, 0, 280)] := by
    rw [LT24_drawColumn, drawColumnBands_calls]
    rfl
  refine ⟨hcalls _, hfold _, fun t colour x y => ⟨rfl, drawWindow_status cmd _ t colour x y⟩,
    hwrites (LT24_initGeometries graphWidth graphHeight columns windowHeight) c, h8,
    fun x y => rfl, ?_, ?_, ?_⟩
  · intro call hcall
    rw [h8] at hcall
    simp only [List.mem_cons, List.mem_singleton, List.mem_nil_iff, or_false] at hcall
    rcases hcall with h | h | h | h | h | h | h | h <;> subst h <;>
      exact ⟨by norm_num, by norm_num⟩
  · intro t i hinit hi
    rw [drawWindow_success cmd (LT24_initGeometries 240 320 4 40) t _ 0 (i * 40) hinit
      (by decide) (by decide) (by decide) (by show i * 40 + 40 ≤ 320; omega)]
  · intro hinit
    have h := hwrites (LT24_initGeometries 240 320 4 40) 0 hinit (by decide) (by decide)
      (by decide) (by decide)
    have e : ∀ i : Nat, i * 40 + 40 - 1 = i * 40 + 39 := by intro i; omega
    rw [h]
    simp only [LT24_initGeometries, e]

/-- Witness of C11: the geometry 240, 320, 4, 40 and column 0 on a freshly initialised
driver, with the band colours 1 to 8; the eight calls are listed and the device receives
eight times seven addressing writes and 2400 colour words. -/
theorem LT24_drawColumn_bands_witness :
    (0 < 4 ∧ LT24_isInitialised initialisedLT24 = true) ∧
    (LT24_drawColumn sampleCommands (LT24_initGeometries 240 320 4 40) initialisedLT24
        [1, 2, 3, 4, 5, 6, 7, 8] 0).2 =
      [(1, 0, 0), (2, 0, 40), (3, 0, 80), (4, 0, 120), (5, 0, 160), (6, 0, 200),
       (7, 0, 240), (8, 0, 280)] ∧
    (LT24_drawColumn sampleCommands (LT24_initGeometries 240 320 4 40) initialisedLT24
        [1, 2, 3, 4, 5, 6, 7, 8] 0).1.writes =
      initialisedLT24.writes ++ (List.range 8).flatMap (fun i =>
        [(false, sampleCommands.columnAddress % 2 ^ 16), (true, 0), (true, 59),
          (false, sampleCommands.rowAddress % 2 ^ 16), (true, i * 40), (true, i * 40 + 39),
          (false, sampleCommands.memoryWrite % 2 ^ 16)] ++
         List.replicate 2400 (true, [1, 2, 3, 4, 5, 6, 7, 8].getD i 0 % 2 ^ 16)) :=
  ⟨⟨by decide, rfl⟩,
    (LT24_drawColumn_bands sampleCommands initialisedLT24 240 320 4 40
      [1, 2, 3, 4, 5, 6, 7, 8] 0 (by decide)).2.2.2.2.1,
    (LT24_drawColumn_bands sampleCommands initialisedLT24 240 320 4 40
      [1, 2, 3, 4, 5, 6, 7, 8] 0 (by decide)).2.2.2.2.2.2.2.2 rfl⟩

/-- C12: on a driver that is not initialised, each of `LT24_clearDisplay`,
`LT24_setWindow`, `LT24_testPattern`, `LT24_copyFrameBuffer`, `LT24_drawPixel` and
`LT24_drawWindow` returns `LT24_ERRORNOINIT` and hands back the state it was given: the
list of `LT24_write` calls has not grown. -/
theorem LT24_not_initialised (cmd : LT24Commands) (g : LT24Geometry) (s : LT24)
    (image framebuffer : List Nat) (colour x y width height : Nat)
    (h : LT24_isInitialised s = false) :
    LT24_clearDisplay cmd s colour = (LT24_ERRORNOINIT, s) ∧
    LT24_setWindow cmd s x y width height = (LT24_ERRORNOINIT, s) ∧
    LT24_testPattern cmd image s = (LT24_ERRORNOINIT, s) ∧
    LT24_copyFrameBuffer cmd s framebuffer x y width height = (LT24_ERRORNOINIT, s) ∧
    LT24_drawPixel cmd s colour x y = (LT24_ERRORNOINIT, s) ∧
    LT24_drawWindow cmd g s colour x y = (LT24_ERRORNOINIT, s) ∧
    (LT24_clearDisplay cmd s colour).2.writes = s.writes ∧
    (LT24_setWindow cmd s x y width height).2.writes = s.writes ∧
    (LT24_testPattern cmd image s).2.writes = s.writes ∧
    (LT24_copyFrameBuffer cmd s framebuffer x y width height).2.writes = s.writes ∧
    (LT24_drawPixel cmd s colour x y).2.writes = s.writes ∧
    (LT24_drawWindow cmd g s colour x y).2.writes = s.writes := by
  have hne := errorNoInit_ne_success
  have hclear : LT24_clearDisplay cmd s colour = (LT24_ERRORNOINIT, s) := by
    rw [LT24_clearDisplay, setWindow_uninitialised cmd s _ _ _ _ h]
    exact if_pos hne
  have hset := setWindow_uninitialised cmd s x y width height h
  have htest : LT24_testPattern cmd image s = (LT24_ERRORNOINIT, s) := by
    rw [LT24_testPattern, setWindow_uninitialised cmd s _ _ _ _ h]
    exact if_pos hne
  have hcopy : LT24_copyFrameBuffer cmd s framebuffer x y width height =
      (LT24_ERRORNOINIT, s) := by
    rw [LT24_copyFrameBuffer, hset]
    exact if_pos hne
  have hpixel : LT24_drawPixel cmd s colour x y = (LT24_ERRORNOINIT, s) := by
    rw [LT24_drawPixel, if_pos h]
  have hwindow : LT24_drawWindow cmd g s colour x y = (LT24_ERRORNOINIT, s) := by
    unfold LT24_drawWindow windowRectangle
    dsimp only
    rw [setWindow_uninitialised cmd s _ _ _ _ h]
    exact if_pos hne
  refine ⟨hclear, hset, htest, hcopy, hpixel, hwindow, ?_, ?_, ?_, ?_, ?_, ?_⟩
  · rw [hclear]
  · rw [hset]
  · rw [htest]
  · rw [hcopy]
  · rw [hpixel]
  · rw [hwindow]

/-- Witness of C12: before bring-up, clearing the display and drawing a window of the
geometry 240, 320, 4, 40 both return `LT24_ERRORNOINIT` and leave the list of device
writes empty. -/
theorem LT24_not_initialised_witness :
    LT24_isInitialised uninitialisedLT24 = false ∧
    LT24_clearDisplay sampleCommands uninitialisedLT24 0xF800 =
      (LT24_ERRORNOINIT, uninitialisedLT24) ∧
    (LT24_drawWindow sampleCommands (LT24_initGeometries 240 320 4 40) uninitialisedLT24
        0xF800 0 0).2.writes = [] :=
  ⟨rfl,
    (LT24_not_initialised sampleCommands (LT24_initGeometries 240 320 4 40)
      uninitialisedLT24 [] [] 0xF800 0 0 1 1 rfl).1,
    (LT24_not_initialised sampleCommands (LT24_initGeometries 240 320 4 40)
      uninitialisedLT24 [] [] 0xF800 0 0 1 1 rfl).2.2.2.2.2.2.2.2.2.2.2⟩

/-- C13: for every placement of the four contiguous bands, `LT24_mapMagnitudeToColour(0)`
is pure blue, the colour word 0x001F = `LT24_BLUE`, and `LT24_mapMagnitudeToColour(MAX)`
is pure red, 0xF800 = `LT24_RED`, MAX being the full-scale magnitude. -/
theorem LT24_mapMagnitudeToColour_ends (b : MagnitudeBands) (h1 : 0 < b.cyanAt)
    (h2 : b.cyanAt < b.greenAt) (h3 : b.greenAt < b.yellowAt) (h4 : b.yellowAt < b.full) :
    LT24_mapMagnitudeToColour b 0 = 0x001F ∧
    LT24_mapMagnitudeToColour b 0 = LT24_BLUE ∧
    LT24_mapMagnitudeToColour b b.full = 0xF800 ∧
    LT24_mapMagnitudeToColour b b.full = LT24_RED := by
  have hblue : LT24_mapMagnitudeToColour b 0 = 0x001F := by
    have hramp : ramp 0x3F 0 b.cyanAt = 0 := by
      unfold ramp
      rw [Nat.mul_zero, Nat.zero_div]
    rw [LT24_mapMagnitudeToColour, if_pos h1, hramp]
    decide
  have hred : LT24_mapMagnitudeToColour b b.full = 0xF800 := by
    have n1 : ¬ b.full < b.cyanAt := by omega
    have n2 : ¬ b.full < b.greenAt := by omega
    have n3 : ¬ b.full < b.yellowAt := by omega
    have hlen : 0 < b.full - b.yellowAt := by omega
    have hramp : ramp 0x3F (b.full - b.yellowAt) (b.full - b.yellowAt) = 0x3F := by
      unfold ramp
      exact Nat.mul_div_cancel _ hlen
    rw [LT24_mapMagnitudeToColour, if_neg n1, if_neg n2, if_neg n3, hramp]
    decide
  exact ⟨hblue, hblue.trans (by decide), hred, hred.trans (by decide)⟩

/-- Witness of C13: four equal bands over the magnitudes 0 to 0xFFFF. -/
theorem LT24_mapMagnitudeToColour_ends_witness :
    (0 < sampleBands.cyanAt ∧ sampleBands.cyanAt < sampleBands.greenAt ∧
      sampleBands.greenAt < sampleBands.yellowAt ∧ sampleBands.yellowAt < sampleBands.full ∧
      sampleBands.full = 0xFFFF) ∧
    (LT24_mapMagnitudeToColour sampleBands 0 = 0x001F ∧
     LT24_mapMagnitudeToColour sampleBands 0 = LT24_BLUE ∧
     LT24_mapMagnitudeToColour sampleBands 0xFFFF = 0xF800 ∧
     LT24_mapMagnitudeToColour sampleBands 0xFFFF = LT24_RED) :=
  ⟨by decide,
    LT24_mapMagnitudeToColour_ends sampleBands (by decide) (by decide) (by decide)
      (by decide)⟩

/-- C14: `LT24_SUCCESS` is 0; the error codes `LT24_ERRORNOINIT`, `LT24_INVALIDSIZE` and
`LT24_INVALIDSHAPE` are negative, hence different from `LT24_SUCCESS`, and pairwise
distinct. -/
theorem LT24_result_codes :
    LT24_SUCCESS = 0 ∧
    LT24_ERRORNOINIT < 0 ∧ LT24_INVALIDSIZE < 0 ∧ LT24_INVALIDSHAPE < 0 ∧
    LT24_ERRORNOINIT ≠ LT24_SUCCESS ∧ LT24_INVALIDSIZE ≠ LT24_SUCCESS ∧
    LT24_INVALIDSHAPE ≠ LT24_SUCCESS ∧
    LT24_ERRORNOINIT ≠ LT24_INVALIDSIZE ∧ LT24_ERRORNOINIT ≠ LT24_INVALIDSHAPE ∧
    LT24_INVALIDSIZE ≠ LT24_INVALIDSHAPE := by
  decide

end DE1SoC
